import Mathlib

/-
  Verification of the fts-result library (src/Result.ts).

  The library defines a discriminated union Result<E, V> with two variants:
  _Err (kind "Err", payload err : E) and _Ok (kind "Ok", payload value : V),
  produced by the factory functions Err and Ok, together with the instance
  methods fmap, bind, seq, then, mapErr and the free functions unbox, isOk,
  isErr, fromNullable, fromException, fromOk, fromErr.

  The embedding below translates each of these from the TypeScript source.
  Exception-raising boundaries (fromException, fromOk, fromErr) are modelled
  with Except, where `Except.error` stands for a raised exception.  Callback
  invocation counts, which the spec asks to observe with a call-counting spy,
  are modelled by instrumented variants (suffix C) that are identical to the
  source methods except that they additionally return how many times the
  supplied callback was invoked.
-/

namespace FtsResult

/-- Result<E, V> from src/Result.ts: a tagged union of _Err (factory Err)
carrying an error payload and _Ok (factory Ok) carrying a value. -/
inductive Result (E V : Type) where
  | Err (err : E) : Result E V
  | Ok (value : V) : Result E V
deriving DecidableEq

/-- The readonly string tag field `kind`: "Err" on _Err, "Ok" on _Ok. -/
def Result.kind : Result E V → String
  | .Err _ => "Err"
  | .Ok _ => "Ok"

/-- fmap, from _Err.fmap (returns Err(this.err)) and _Ok.fmap (returns
Ok(fmapFunction(this.value))). -/
def Result.fmap : Result E V → (V → Vo) → Result E Vo
  | .Err e, _ => .Err e
  | .Ok v, f => .Ok (f v)

/-- bind, from _Err.bind (returns Err(this.err)) and _Ok.bind (returns
bindFun(this.value) directly, no rewrapping). -/
def Result.bind : Result E V → (V → Result E Vo) → Result E Vo
  | .Err e, _ => .Err e
  | .Ok v, f => f v

/-- seq, from _Err.seq (returns Err(this.err)) and _Ok.seq (returns
sequenceFunction(), ignoring the carried value). -/
def Result.seq : Result E V → (Unit → Result E Vo) → Result E Vo
  | .Err e, _ => .Err e
  | .Ok _, g => g ()

/-- Modelled from the spec: defaultThen from the external fts-monad
collaborator (not part of this repository's sources) delegates to the
value-consuming chaining function when given one, and otherwise invokes
the no-argument chaining function.  The two callable shapes that the
TypeScript union BindFunction | SequenceFunction distinguishes by arity
are modelled as a sum type. -/
def defaultThen {E V Vo : Type} (value : V) :
    (V → Result E Vo) ⊕ (Unit → Result E Vo) → Result E Vo
  | .inl bindFun => bindFun value
  | .inr seqFun => seqFun ()

/-- then, from _Err.then (returns Err(this.err)) and _Ok.then (returns
defaultThen(this.value, bindOrSequenceFunction)).  Named thenFn because
`then` is reserved in Lean. -/
def Result.thenFn : Result E V →
    ((V → Result E Vo) ⊕ (Unit → Result E Vo)) → Result E Vo
  | .Err e, _ => .Err e
  | .Ok v, f => defaultThen v f

/-- mapErr, from _Err.mapErr (returns Err(errMapFun(this.err))) and
_Ok.mapErr (returns Ok(this.value)). -/
def Result.mapErr : Result E V → (E → Eo) → Result Eo V
  | .Err e, f => .Err (f e)
  | .Ok v, _ => .Ok v

/-- unbox, from src/Result.ts: switch on result.kind, returning
okCallback(result.value) for "Ok" and errCallback(result.err) for "Err". -/
def unbox (result : Result E V) (okCallback : V → R) (errCallback : E → R) :
    R :=
  match result with
  | .Ok v => okCallback v
  | .Err e => errCallback e

/-- isOk, from src/Result.ts: `result.kind === "Ok"`. -/
def isOk (result : Result E V) : Bool :=
  result.kind == "Ok"

/-- isErr, from src/Result.ts: `!isOk(result)` — the logical negation of
isOk, not an independent tag check. -/
def isErr (result : Result E V) : Bool :=
  !isOk result

/-- Model of a JavaScript dynamic value (the `any`-typed first argument of
fromNullable).  Numbers are modelled as integers; the falsy values of the
model are null, undefined, 0, the empty string and false. -/
inductive JSVal where
  | nullV : JSVal
  | undefinedV : JSVal
  | numV (n : Int) : JSVal
  | strV (s : String) : JSVal
  | boolV (b : Bool) : JSVal
  | objV : JSVal
deriving DecidableEq

/-- JavaScript truthiness test applied by `if(nullable)`. -/
def JSVal.truthy : JSVal → Bool
  | .nullV => false
  | .undefinedV => false
  | .numV n => n != 0
  | .strV s => s != ""
  | .boolV b => b
  | .objV => true

/-- fromNullable, from src/Result.ts: `if(nullable) return Ok(nullable);
else return Err(errorIfNull);` — a truthiness test, not a strict
null/undefined check. -/
def fromNullable (nullable : JSVal) (errorIfNull : E) : Result E JSVal :=
  if nullable.truthy then .Ok nullable else .Err errorIfNull

/-- fromException, from src/Result.ts.  The no-argument TypeScript function
that may raise is modelled as `Unit → Except E V`, where `Except.error e`
stands for a raised exception e.  The try/catch becomes a match: a normal
return value is wrapped as Ok, a raised exception is caught and wrapped
as Err.  The codomain is Result (not Except), so it never re-raises. -/
def fromException (exceptionRaisingFunction : Unit → Except E V) :
    Result E V :=
  match exceptionRaisingFunction () with
  | .ok value => .Ok value
  | .error err => .Err err

/-- An exception crossing the fromOk/fromErr boundary: either a re-raised
wrapped payload (`throw err`) or a freshly constructed diagnostic Error
(`throw new Error(...)`, carrying its message). -/
inductive Exn (E : Type) where
  | payload (e : E) : Exn E
  | diagnostic (msg : String) : Exn E
deriving DecidableEq

/-- fromOk, from src/Result.ts: defined through unbox with okCallback
`(value) => value` and errCallback `(err) => {throw err;}`; the throw is
modelled as `Except.error (Exn.payload err)`. -/
def fromOk (result : Result E V) : Except (Exn E) V :=
  unbox result
    (fun value => .ok value)
    (fun err => .error (.payload err))

/-- fromErr, from src/Result.ts: defined through unbox with okCallback
`(value) => {throw new Error("fromErr was called with an Ok Result");}`
and errCallback `(err) => err`. -/
def fromErr (result : Result E V) : Except (Exn E) E :=
  unbox result
    (fun _ => .error (.diagnostic "fromErr was called with an Ok Result"))
    (fun err => .ok err)

/-- Instrumented fmap: identical to Result.fmap but also returns the number
of times fmapFunction was invoked (the spy of spec section 8). -/
def Result.fmapC : Result E V → (V → Vo) → Result E Vo × Nat
  | .Err e, _ => (.Err e, 0)
  | .Ok v, f => (.Ok (f v), 1)

/-- Instrumented bind: also counts invocations of bindFun. -/
def Result.bindC : Result E V → (V → Result E Vo) → Result E Vo × Nat
  | .Err e, _ => (.Err e, 0)
  | .Ok v, f => (f v, 1)

/-- Instrumented seq: also counts invocations of sequenceFunction. -/
def Result.seqC : Result E V → (Unit → Result E Vo) → Result E Vo × Nat
  | .Err e, _ => (.Err e, 0)
  | .Ok _, g => (g (), 1)

/-- Instrumented then: also counts invocations of the supplied callback
(defaultThen invokes it exactly once on the Ok side). -/
def Result.thenC : Result E V →
    ((V → Result E Vo) ⊕ (Unit → Result E Vo)) → Result E Vo × Nat
  | .Err e, _ => (.Err e, 0)
  | .Ok v, f => (defaultThen v f, 1)

/-- Instrumented mapErr: also counts invocations of errMapFun. -/
def Result.mapErrC : Result E V → (E → Eo) → Result Eo V × Nat
  | .Err e, f => (.Err (f e), 1)
  | .Ok v, _ => (.Ok v, 0)

/-- Instrumented unbox: also returns (okCallback invocations, errCallback
invocations). -/
def unboxC (result : Result E V) (okCallback : V → R) (errCallback : E → R) :
    R × Nat × Nat :=
  match result with
  | .Ok v => (okCallback v, 1, 0)
  | .Err e => (errCallback e, 0, 1)

/-- One step of a combinator chain over a fixed value type: an fmap, bind,
seq or then call together with its supplied callback. -/
inductive ChainOp (E V : Type) where
  | fmapOp (f : V → V) : ChainOp E V
  | bindOp (f : V → Result E V) : ChainOp E V
  | seqOp (g : Unit → Result E V) : ChainOp E V
  | thenOp (f : (V → Result E V) ⊕ (Unit → Result E V)) : ChainOp E V

/-- Apply one chain step with its instrumented operation, returning the new
Result and the number of callback invocations. -/
def applyOpC (r : Result E V) : ChainOp E V → Result E V × Nat
  | .fmapOp f => r.fmapC f
  | .bindOp f => r.bindC f
  | .seqOp g => r.seqC g
  | .thenOp f => r.thenC f

/-- Run a whole chain of fmap/bind/seq/then calls, summing callback
invocation counts. -/
def runOpsC (r : Result E V) : List (ChainOp E V) → Result E V × Nat
  | [] => (r, 0)
  | op :: ops =>
      let step := applyOpC r op
      let rest := runOpsC step.1 ops
      (rest.1, step.2 + rest.2)

lemma applyOpC_err (E V : Type) (e : E) (op : ChainOp E V) :
    applyOpC (Result.Err e) op = (Result.Err e, 0) := by
  cases op <;> rfl

/-- C1: fmap satisfies the functor laws: Ok(v).fmap(x => x) = Ok(v),
Err(e).fmap(x => x) = Err(e), and Ok(v).fmap(f).fmap(g) =
Ok(v).fmap(x => g(f(x))) for all pure f, g. -/
theorem c1_fmap_functor_laws (E V V1 V2 : Type) (v : V) (e : E)
    (f : V → V1) (g : V1 → V2) :
    (Result.Ok v : Result E V).fmap (fun x => x) = Result.Ok v ∧
    (Result.Err e : Result E V).fmap (fun x => x) = Result.Err e ∧
    ((Result.Ok v : Result E V).fmap f).fmap g =
      (Result.Ok v : Result E V).fmap (fun x => g (f x)) :=
  ⟨rfl, rfl, rfl⟩

/-- C2: bind satisfies left identity (Ok(v).bind(f) = f(v)) and
associativity ((m.bind(f)).bind(g) = m.bind(v => f(v).bind(g))) for every
Result m and Result-returning f, g. -/
theorem c2_bind_monad_laws (E V V1 V2 : Type) (v : V) (m : Result E V)
    (f : V → Result E V1) (g : V1 → Result E V2) :
    (Result.Ok v : Result E V).bind f = f v ∧
    (m.bind f).bind g = m.bind (fun x => (f x).bind g) := by
  refine ⟨rfl, ?_⟩
  cases m <;> rfl

/-- C3: Failure is an absorbing state: any chain of fmap, bind, seq and
then calls applied to Err(e) yields a Failure carrying the same error e,
and the total number of callback invocations along the chain is zero. -/
theorem c3_err_absorbing (E V : Type) (e : E) (ops : List (ChainOp E V)) :
    runOpsC (Result.Err e) ops = (Result.Err e, 0) := by
  induction ops with
  | nil => rfl
  | cons op ops ih =>
      simp [runOpsC, applyOpC_err, ih]

/-- C4: fromNullable returns Ok(nullable) exactly when nullable is truthy
and Err(errorIfNull) otherwise; in particular it returns Err for null and
undefined but also for the falsy-but-valid inputs 0, "" and false. -/
theorem c4_fromNullable_truthiness (E : Type) (e : E) (x : JSVal) :
    (fromNullable x e = Result.Ok x ↔ x.truthy = true) ∧
    (fromNullable x e = Result.Err e ↔ x.truthy = false) ∧
    fromNullable JSVal.nullV e = Result.Err e ∧
    fromNullable JSVal.undefinedV e = Result.Err e ∧
    fromNullable (JSVal.numV 0) e = Result.Err e ∧
    fromNullable (JSVal.strV "") e = Result.Err e ∧
    fromNullable (JSVal.boolV false) e = Result.Err e := by
  refine ⟨?_, ?_, rfl, rfl, ?_, ?_, rfl⟩
  · cases h : x.truthy <;> simp [fromNullable, h]
  · cases h : x.truthy <;> simp [fromNullable, h]
  · rfl
  · rfl

/-- C4 witness: evaluating the iff characterisation at the concrete input
12 (truthy), which fromNullable wraps as Ok(12). -/
theorem c4_fromNullable_truthiness_witness :
    fromNullable (JSVal.numV 12) "absent" = Result.Ok (JSVal.numV 12) :=
  (c4_fromNullable_truthiness String "absent" (JSVal.numV 12)).1.mpr (by decide)

/-- C5: unbox is the universal eliminator: unbox(Ok(v), okFn, errFn) =
okFn(v) with errFn never invoked, unbox(Err(e), okFn, errFn) = errFn(e)
with okFn never invoked; exactly one callback runs, selected by the tag
(invocation counts from the instrumented unboxC). -/
theorem c5_unbox_eliminator (E V R : Type) (v : V) (e : E)
    (okFn : V → R) (errFn : E → R) :
    unbox (Result.Ok v : Result E V) okFn errFn = okFn v ∧
    unbox (Result.Err e : Result E V) okFn errFn = errFn e ∧
    unboxC (Result.Ok v : Result E V) okFn errFn = (okFn v, 1, 0) ∧
    unboxC (Result.Err e : Result E V) okFn errFn = (errFn e, 0, 1) :=
  ⟨rfl, rfl, rfl, rfl⟩

/-- C6: fromException wraps a normal return of fn as Ok of that value and
a raised exception as Err of that same exception; its codomain is Result,
so it never re-raises. -/
theorem c6_fromException_boundary (E V : Type) (fn : Unit → Except E V)
    (v : V) (e : E) :
    (fn () = Except.ok v → fromException fn = Result.Ok v) ∧
    (fn () = Except.error e → fromException fn = Result.Err e) := by
  constructor
  · intro h
    simp [fromException, h]
  · intro h
    simp [fromException, h]

/-- C6 witness: a returning thunk yields Ok 5, a throwing thunk yields Err
of the thrown exception. -/
theorem c6_fromException_boundary_witness :
    fromException (fun _ => (Except.ok 5 : Except String Nat)) =
      Result.Ok 5 ∧
    fromException (fun _ => (Except.error "x" : Except String Nat)) =
      Result.Err "x" :=
  ⟨(c6_fromException_boundary String Nat (fun _ => Except.ok 5) 5 "x").1 rfl,
   (c6_fromException_boundary String Nat
      (fun _ => Except.error "x") 5 "x").2 rfl⟩

/-- C7: fromOk(Ok(v)) returns v and fromOk(Err(e)) raises the wrapped
payload e itself; fromErr(Err(e)) returns e and fromErr(Ok(v)) raises a
fresh diagnostic exception distinct from any payload.  The four equations
cover both constructors, so these are the only raising inputs. -/
theorem c7_fromOk_fromErr (E V : Type) (v : V) (e : E) :
    fromOk (Result.Ok v : Result E V) = Except.ok v ∧
    fromOk (Result.Err e : Result E V) = Except.error (Exn.payload e) ∧
    fromErr (Result.Err e : Result E V) = Except.ok e ∧
    fromErr (Result.Ok v : Result E V) =
      Except.error (Exn.diagnostic "fromErr was called with an Ok Result") ∧
    (∀ e2 : E,
      (Exn.diagnostic "fromErr was called with an Ok Result" : Exn E) ≠
        Exn.payload e2) := by
  refine ⟨rfl, rfl, rfl, rfl, ?_⟩
  intro e2 h
  exact Exn.noConfusion h

/-- C7 witness: concrete evaluations at Ok 5 and Err "m". -/
theorem c7_fromOk_fromErr_witness :
    fromOk (Result.Ok 5 : Result String Nat) = Except.ok 5 ∧
    fromErr (Result.Err "m" : Result String Nat) = Except.ok "m" ∧
    (Exn.diagnostic "fromErr was called with an Ok Result" : Exn String) ≠
      Exn.payload "m" :=
  ⟨(c7_fromOk_fromErr String Nat 5 "m").1,
   (c7_fromOk_fromErr String Nat 5 "m").2.2.1,
   (c7_fromOk_fromErr String Nat 5 "m").2.2.2.2 "m"⟩

/-- C8: Err(e).mapErr(f) is a Failure carrying f(e); Ok(v).mapErr(f) is a
Success carrying the same v and f is never invoked (count 0 from the
instrumented mapErrC). -/
theorem c8_mapErr (E Eo V : Type) (e : E) (v : V) (f : E → Eo) :
    (Result.Err e : Result E V).mapErr f = Result.Err (f e) ∧
    (Result.Ok v : Result E V).mapErr f = Result.Ok v ∧
    Result.mapErrC (Result.Ok v : Result E V) f = (Result.Ok v, 0) ∧
    Result.mapErrC (Result.Err e : Result E V) f = (Result.Err (f e), 1) :=
  ⟨rfl, rfl, rfl, rfl⟩

/-- C9: Ok(v).seq(g) invokes g with no arguments (exactly once) and
returns its result directly, ignoring v; Err(e).seq(g) is a Failure
carrying e and g is never invoked. -/
theorem c9_seq (E V Vo : Type) (v : V) (e : E) (g : Unit → Result E Vo) :
    (Result.Ok v : Result E V).seq g = g () ∧
    (Result.Err e : Result E V).seq g = Result.Err e ∧
    Result.seqC (Result.Ok v : Result E V) g = (g (), 1) ∧
    Result.seqC (Result.Err e : Result E V) g = (Result.Err e, 0) :=
  ⟨rfl, rfl, rfl, rfl⟩

/-- C10: isOk(r) is true iff r's tag is "Ok", isErr is the literal
negation of isOk, and the four concrete tag facts hold. -/
theorem c10_isOk_isErr (E V : Type) (r : Result E V) (v : V) (e : E) :
    (isOk r = true ↔ r.kind = "Ok") ∧
    isErr r = !isOk r ∧
    isOk (Result.Ok v : Result E V) = true ∧
    isErr (Result.Ok v : Result E V) = false ∧
    isErr (Result.Err e : Result E V) = true ∧
    isOk (Result.Err e : Result E V) = false := by
  refine ⟨?_, rfl, rfl, rfl, rfl, rfl⟩
  cases r <;> simp [isOk, Result.kind]

/-- C10 witness: the iff characterisation evaluated at Ok 5. -/
theorem c10_isOk_isErr_witness :
    isOk (Result.Ok 5 : Result String Nat) = true :=
  ((c10_isOk_isErr String Nat (Result.Ok 5) 5 "e").1).mpr rfl

end FtsResult
